import Mathlib

/-!
Verification of the procedural cell-lighting and rendering engine of the
Pixel-Grid-Creator repository.

The repository renders an interactive pixel grid through two backends:
an immediate-mode canvas backend (src/components/PixelGridCanvas.tsx) and a
per-cell animated-view backend (src/components/MobileGridFallback.tsx).
This file gives a shallow embedding of the color model, the intensity field,
the wave system, the pointer settle timers, the particle system and the
palette selection of both backends, and proves or refutes the specified
properties about them.

JavaScript numbers that can be NaN are modelled as Option ℚ (none = NaN);
quantities fed through transcendental functions (Math.sin, Math.cos,
Math.sqrt, Math.exp) are modelled over ℝ.
-/

namespace PixelGrid

/-! ### JavaScript primitives

NaN-propagating arithmetic on JavaScript numbers, JS string slicing, and the
parseInt / parseFloat fragments reachable from color strings. -/

/-- A JavaScript number that may be NaN: none models NaN. -/
abbrev JsNum := Option ℚ

/-- NaN-propagating addition. -/
def jsAdd : JsNum → JsNum → JsNum
  | some a, some b => some (a + b)
  | _, _ => none

/-- NaN-propagating subtraction. -/
def jsSub : JsNum → JsNum → JsNum
  | some a, some b => some (a - b)
  | _, _ => none

/-- NaN-propagating multiplication (in JavaScript NaN * 0 is NaN). -/
def jsMul : JsNum → JsNum → JsNum
  | some a, some b => some (a * b)
  | _, _ => none

/-- Math.round: floor(q + 1/2), NaN-propagating. -/
def jsRound : JsNum → JsNum :=
  Option.map (fun q => ((⌊q + 1 / 2⌋ : ℤ) : ℚ))

/-- The whitespace characters relevant to \s and parseInt trimming. -/
def isWs (c : Char) : Bool :=
  c = ' ' || c = '\t' || c = '\n' || c = '\r'

/-- Hexadecimal digit test (0-9, a-f, A-F). -/
def isHexDigit (c : Char) : Bool :=
  c.isDigit || ('a' ≤ c && c ≤ 'f') || ('A' ≤ c && c ≤ 'F')

/-- Value of a hexadecimal digit. -/
def hexDigitVal (c : Char) : ℕ :=
  if c.isDigit then c.toNat - 48
  else if 'a' ≤ c && c ≤ 'f' then c.toNat - 87
  else c.toNat - 55

/-- Value of a list of hexadecimal digits, most significant first. -/
def natOfDigitsHex (cs : List Char) : ℕ :=
  cs.foldl (fun acc c => 16 * acc + hexDigitVal c) 0

/-- Value of a list of decimal digits, most significant first. -/
def natOfDigitsDec (cs : List Char) : ℕ :=
  cs.foldl (fun acc c => 10 * acc + (c.toNat - 48)) 0

/-- parseInt(s, 16) on the strings reachable from color parsing: skip leading
whitespace, take the longest run of hex digits; NaN (none) when empty. -/
def jsParseIntHex (cs : List Char) : Option ℕ :=
  let ds := (cs.dropWhile isWs).takeWhile isHexDigit
  if ds.isEmpty then none else some (natOfDigitsHex ds)

/-- parseInt(s, 10) on digit strings produced by the rgba regex. -/
def jsParseIntDec (cs : List Char) : Option ℕ :=
  let ds := (cs.dropWhile isWs).takeWhile Char.isDigit
  if ds.isEmpty then none else some (natOfDigitsDec ds)

/-- Value of a fractional digit string d₁…dₙ as 0.d₁…dₙ. -/
def fracValue (cs : List Char) : ℚ :=
  (natOfDigitsDec cs : ℚ) / (10 ^ cs.length : ℚ)

/-- parseFloat on a string matched by the character class of digits and dots:
the longest numeric prefix is taken, NaN (none) when there is none. -/
def jsParseFloat (cs : List Char) : Option ℚ :=
  let ip := cs.takeWhile Char.isDigit
  match ip, cs.drop ip.length with
  | [], '.' :: r =>
    let fp := r.takeWhile Char.isDigit
    if fp.isEmpty then none else some (fracValue fp)
  | [], _ => none
  | ds, '.' :: r => some ((natOfDigitsDec ds : ℚ) + fracValue (r.takeWhile Char.isDigit))
  | ds, _ => some (natOfDigitsDec ds)

/-- JavaScript String.slice(a, b) on a character list. -/
def jsSlice (cs : List Char) (a b : ℕ) : List Char :=
  (cs.drop a).take (b - a)

/-- String.startsWith on character lists. -/
def startsWithL : List Char → List Char → Bool
  | [], _ => true
  | _ :: _, [] => false
  | p :: ps, c :: cs => c = p && startsWithL ps cs

/-! ### The rgba()/rgb() regular expression

Both backends match color strings against
rgba?\((\d+),\s*(\d+),\s*(\d+)(?:,\s*([\d.]+))?\) with an unanchored search.
Every character class in the pattern is disjoint from the literal that
follows it, so a greedy matcher without backtracking inside classes is
exactly equivalent. -/

/-- Match a nonempty run of decimal digits, returning its value and the rest. -/
def digits1 (cs : List Char) : Option (ℕ × List Char) :=
  let ds := cs.takeWhile Char.isDigit
  if ds.isEmpty then none else some (natOfDigitsDec ds, cs.drop ds.length)

/-- Match a nonempty run of the class of digits and dots, returning the
matched characters and the rest. -/
def digitsDot1 (cs : List Char) : Option (List Char × List Char) :=
  let ds := cs.takeWhile (fun c => c.isDigit || c = '.')
  if ds.isEmpty then none else some (ds, cs.drop ds.length)

/-- Match the fragment ,\s*(\d+). -/
def commaWsNum (cs : List Char) : Option (ℕ × List Char) :=
  match cs with
  | ',' :: r => digits1 (r.dropWhile isWs)
  | _ => none

/-- Match the literal opening rgba?\( including the optional a. -/
def rgbaOpen (cs : List Char) : Option (List Char) :=
  match cs with
  | 'r' :: 'g' :: 'b' :: 'a' :: '(' :: rest => some rest
  | 'r' :: 'g' :: 'b' :: '(' :: rest => some rest
  | _ => none

/-- Match the whole rgba pattern at the start of the list, returning the
three integer channel values and, when present, the raw characters of the
alpha group. -/
def rgbaMatchAt (cs : List Char) : Option (ℕ × ℕ × ℕ × Option (List Char)) :=
  match rgbaOpen cs with
  | none => none
  | some rest =>
    match digits1 rest with
    | none => none
    | some (d1, rest1) =>
      match commaWsNum rest1 with
      | none => none
      | some (d2, rest2) =>
        match commaWsNum rest2 with
        | none => none
        | some (d3, rest3) =>
          match rest3 with
          | ',' :: r =>
            match digitsDot1 (r.dropWhile isWs) with
            | some (al, r2) =>
              match r2 with
              | ')' :: _ => some (d1, d2, d3, some al)
              | _ => none
            | none => none
          | ')' :: _ => some (d1, d2, d3, none)
          | _ => none

/-- Unanchored regex search: first position where the rgba pattern matches,
as String.prototype.match does. -/
def rgbaSearch : List Char → Option (ℕ × ℕ × ℕ × Option (List Char))
  | [] => none
  | c :: cs =>
    match rgbaMatchAt (c :: cs) with
    | some m => some m
    | none => rgbaSearch cs

/-! ### ColorModel: parseColor and interpolateColor -/

/-- The record returned by the color parsers; channels are JavaScript
numbers, so a channel can hold NaN (none). -/
@[ext]
structure JsRGBA where
  r : JsNum
  g : JsNum
  b : JsNum
  a : JsNum
  deriving DecidableEq, Repr

/-- parseColor of the canvas backend (PixelGridCanvas.tsx, inside
interpolateColor): empty input gives the opaque black fallback, a leading #
is parsed by fixed six-digit slices (1,3), (3,5), (5,7) - so a three-digit
hex string leaves the blue slice empty and produces NaN - otherwise the rgba
regex is searched, and anything else falls back to opaque black. -/
def parseColorCanvas (color : String) : JsRGBA :=
  let cs := color.data
  if cs.isEmpty then ⟨some 0, some 0, some 0, some 1⟩
  else if startsWithL ['#'] cs then
    { r := (jsParseIntHex (jsSlice cs 1 3)).map (fun n => (n : ℚ))
      g := (jsParseIntHex (jsSlice cs 3 5)).map (fun n => (n : ℚ))
      b := (jsParseIntHex (jsSlice cs 5 7)).map (fun n => (n : ℚ))
      a := some 1 }
  else
    match rgbaSearch cs with
    | some (d1, d2, d3, al) =>
      { r := some (d1 : ℚ), g := some (d2 : ℚ), b := some (d3 : ℚ)
        a := match al with
             | none => some 1
             | some as => jsParseFloat as }
    | none => ⟨some 0, some 0, some 0, some 1⟩

/-- parseHex of the mobile backend: strips a leading #, handles both the
three-digit form (each digit doubled) and the six-digit form, maps NaN to 0
and any other length to black. -/
def parseHexMobile (hex : String) : ℕ × ℕ × ℕ :=
  let cs := hex.data
  if cs.isEmpty then (0, 0, 0)
  else
    let clean := if startsWithL ['#'] cs then cs.drop 1 else cs
    if clean.length = 3 then
      ((jsParseIntHex [clean.getD 0 ' ', clean.getD 0 ' ']).getD 0,
       (jsParseIntHex [clean.getD 1 ' ', clean.getD 1 ' ']).getD 0,
       (jsParseIntHex [clean.getD 2 ' ', clean.getD 2 ' ']).getD 0)
    else if clean.length = 6 then
      ((jsParseIntHex (jsSlice clean 0 2)).getD 0,
       (jsParseIntHex (jsSlice clean 2 4)).getD 0,
       (jsParseIntHex (jsSlice clean 4 6)).getD 0)
    else (0, 0, 0)

/-- parseColor of the mobile backend (MobileGridFallback.tsx): empty input
gives the fully transparent fallback, a leading rgb prefix triggers the
regex search with an isNaN guard mapping a NaN alpha to 1, a leading # uses
parseHex, and anything else falls back to opaque black. -/
def parseColorMobile (color : String) : JsRGBA :=
  let cs := color.data
  if cs.isEmpty then ⟨some 0, some 0, some 0, some 0⟩
  else
    let viaRgb : Option JsRGBA :=
      if startsWithL ['r', 'g', 'b'] cs then
        match rgbaSearch cs with
        | some (d1, d2, d3, al) =>
          some { r := some (d1 : ℚ), g := some (d2 : ℚ), b := some (d3 : ℚ)
                 a := some (match al with
                            | none => (1 : ℚ)
                            | some as => (jsParseFloat as).getD 1) }
        | none => none
      else none
    match viaRgb with
    | some c => c
    | none =>
      if startsWithL ['#'] cs then
        let rgb := parseHexMobile color
        ⟨some (rgb.1 : ℚ), some (rgb.2.1 : ℚ), some (rgb.2.2 : ℚ), some 1⟩
      else ⟨some 0, some 0, some 0, some 1⟩

/-- Math.max(0, Math.min(1, q)): the factor clamping of interpolateColor. -/
def clamp01 (q : ℚ) : ℚ := max 0 (min 1 q)

/-- interpolateColor of the canvas backend, at the level of the channel
record it builds before formatting the rgba string: the factor is clamped to
[0,1], r, g, b are linearly interpolated and rounded, the alpha is
interpolated unrounded. -/
def interpolateColor (color1 color2 : String) (factor : ℚ) : JsRGBA :=
  let f := clamp01 factor
  let c1 := parseColorCanvas color1
  let c2 := parseColorCanvas color2
  { r := jsRound (jsAdd c1.r (jsMul (jsSub c2.r c1.r) (some f)))
    g := jsRound (jsAdd c1.g (jsMul (jsSub c2.g c1.g) (some f)))
    b := jsRound (jsAdd c1.b (jsMul (jsSub c2.b c1.b) (some f)))
    a := jsAdd c1.a (jsMul (jsSub c2.a c1.a) (some f)) }

/-- A valid color string for the canvas backend: its parse yields numeric
(non-NaN) channels, with natural-number red, green and blue values - every
non-NaN parse result has this shape, since the channels come from parseInt. -/
def ValidColor (s : String) : Prop :=
  (∃ n : ℕ, (parseColorCanvas s).r = some (n : ℚ)) ∧
  (∃ n : ℕ, (parseColorCanvas s).g = some (n : ℚ)) ∧
  (∃ n : ℕ, (parseColorCanvas s).b = some (n : ℚ)) ∧
  (parseColorCanvas s).a.isSome

/-! ### IntensityField: the per-cell intensity of the canvas backend

Embedding of the intensity computation of drawCell in PixelGridCanvas.tsx:
the switch on lightingShape followed by the lightingMode adjustment. -/

/-- The four lighting shapes. -/
inductive LightingShape
  | circular
  | linear
  | radial
  | random
  deriving DecidableEq, Repr

/-- The six lighting modes. -/
inductive LightingMode
  | gradient
  | simple
  | pulse
  | solid
  | highlight
  | uniform
  deriving DecidableEq, Repr

/-- The inputs drawCell reads when computing a cell intensity: the cell pixel
position and grid coordinates, the shared touch position and flags, the
canvas size, the interaction radius and the animation time. -/
structure IntensityEnv where
  x : ℝ
  y : ℝ
  col : ℕ
  row : ℕ
  touchX : ℝ
  touchY : ℝ
  isTouching : Bool
  autoWave : Bool
  width : ℝ
  height : ℝ
  interactionRadius : ℝ
  waveTime : ℝ

/-- Math.sqrt(Math.pow(x - touchX, 2) + Math.pow(y - touchY, 2)). -/
noncomputable def touchDist (e : IntensityEnv) : ℝ :=
  Real.sqrt ((e.x - e.touchX) ^ 2 + (e.y - e.touchY) ^ 2)

/-- The deterministic pseudo-random seed ((col * 100 + row) % 1000) / 1000. -/
noncomputable def randomSeed (col row : ℕ) : ℝ :=
  (((col * 100 + row) % 1000 : ℕ) : ℝ) / 1000

/-- The lighting-shape switch of drawCell. Only the linear, radial and
random interactive branches clamp with Math.min(1, _); the circular branch
clamps only from below. -/
noncomputable def shapeIntensity (shape : LightingShape) (e : IntensityEnv) : ℝ :=
  match shape with
  | LightingShape.circular =>
    if e.isTouching || e.autoWave then
      let base := max 0 (1 - touchDist e / e.interactionRadius)
      if e.autoWave then
        max 0 (base + Real.sin (touchDist e * 0.05 - e.waveTime * 3) * 0.3)
      else base
    else 0
  | LightingShape.linear =>
    if e.isTouching || e.autoWave then
      let base := e.x / e.width
      let touchI := max 0 (1 - touchDist e / (e.interactionRadius * 1.5))
      let wave := if e.autoWave then Real.sin (e.x * 0.02 + e.waveTime * 2) * 0.3 else 0
      max 0 (min 1 (base * 0.3 + touchI * 0.5 + wave))
    else e.x / e.width
  | LightingShape.radial =>
    let radialDist := Real.sqrt ((e.x - e.width / 2) ^ 2 + (e.y - e.height / 2) ^ 2)
    let maxRadius := Real.sqrt ((e.width / 2) ^ 2 + (e.height / 2) ^ 2)
    let radialI := 1 - radialDist / maxRadius
    if e.isTouching || e.autoWave then
      let touchI := max 0 (1 - touchDist e / e.interactionRadius)
      let wave := if e.autoWave then Real.sin (radialDist * 0.05 - e.waveTime * 2) * 0.3 else 0
      max 0 (min 1 (radialI * 0.4 + touchI * 0.4 + wave))
    else radialI
  | LightingShape.random =>
    let seed := randomSeed e.col e.row
    if e.isTouching || e.autoWave then
      let touchI := max 0 (1 - touchDist e / e.interactionRadius)
      let wave := if e.autoWave then Real.sin (seed * 10 + e.waveTime * 3) * 0.3 else 0
      max 0 (min 1 (seed * 0.4 + touchI * 0.4 + wave))
    else seed

/-- The lightingMode adjustment applied after the shape switch: uniform
forces 1, pulse multiplies by 0.5 + 0.5 * sin(time * 5), everything else is
unchanged.  The canvas backend receives the mode as an optional prop. -/
noncomputable def applyLightingMode (mode : Option LightingMode) (t : ℝ) (i : ℝ) : ℝ :=
  match mode with
  | some LightingMode.uniform => 1
  | some LightingMode.pulse => i * (0.5 + 0.5 * Real.sin (t * 5))
  | _ => i

/-- The full intensity drawCell computes before the color mapping. -/
noncomputable def cellIntensity (shape : LightingShape) (mode : Option LightingMode)
    (e : IntensityEnv) : ℝ :=
  applyLightingMode mode e.waveTime (shapeIntensity shape e)

/-! ### WaveSystem -/

/-- A wave source of the canvas backend. -/
structure WaveSource where
  x : ℝ
  y : ℝ
  speed : ℝ
  amplitude : ℝ
  frequency : ℝ
  phase : ℝ
  active : Bool

/-- The position an active wave source moves to before the bounce checks:
both coordinates advance along the angle phase + time * speed. -/
noncomputable def moveWave (time dt : ℝ) (w : WaveSource) : ℝ × ℝ :=
  let angle := w.phase + time * w.speed
  (w.x + Real.cos angle * w.speed * dt * 0.05,
   w.y + Real.sin angle * w.speed * dt * 0.05)

/-- One updateWaveSources step of the canvas backend on one source: inactive
sources are untouched; otherwise the source moves, then each axis bounce
clamps the coordinate with max(0, min(_, bound)) and reflects the phase
(pi - phase for the x axis, then negation for the y axis). -/
noncomputable def updateWaveSource (width height time dt : ℝ) (w : WaveSource) : WaveSource :=
  if w.active then
    let m := moveWave time dt w
    let hitX := m.1 < 0 ∨ m.1 > width
    let x2 := if hitX then max 0 (min m.1 width) else m.1
    let p2 := if hitX then Real.pi - w.phase else w.phase
    let hitY := m.2 < 0 ∨ m.2 > height
    let y2 := if hitY then max 0 (min m.2 height) else m.2
    let p3 := if hitY then -p2 else p2
    { w with x := x2, y := y2, phase := p3 }
  else w

/-- One updateWaveSources tick over the whole source list. -/
noncomputable def updateWaveSources (width height time dt : ℝ) (ws : List WaveSource) :
    List WaveSource :=
  ws.map (updateWaveSource width height time dt)

/-- Any finite number of canvas wave ticks, each with its own time and
delta-time sample. -/
noncomputable def runWaveSources (width height : ℝ) :
    List (ℝ × ℝ) → List WaveSource → List WaveSource
  | [], ws => ws
  | td :: steps, ws => runWaveSources width height steps (updateWaveSources width height td.1 td.2 ws)

/-- Position inside the canvas rectangle. -/
def waveInBounds (width height : ℝ) (w : WaveSource) : Prop :=
  0 ≤ w.x ∧ w.x ≤ width ∧ 0 ≤ w.y ∧ w.y ≤ height

/-- A wave source of the mobile backend: no amplitude, frequency or phase,
but a radius used as a bounce margin. -/
structure MobileWave where
  x : ℝ
  y : ℝ
  speed : ℝ
  id : ℝ
  radius : ℝ
  active : Bool

/-- One animateWaves step of the mobile backend on one source: the direction
comes from the timestamp and the source id, and each axis clamps the new
coordinate into the margin-inset rectangle [radius, bound - radius] - not to
the canvas boundary - with no phase to reflect.  The occasional random
active-toggle is passed in as the toggle flag. -/
noncomputable def animateWaveStep (width height timestamp dt : ℝ) (toggle : Bool)
    (w : MobileWave) : MobileWave :=
  let dirX := Real.cos (timestamp * 0.0005 * w.speed + w.id) * w.speed * dt
  let dirY := Real.sin (timestamp * 0.0005 * w.speed + w.id + 1.5) * w.speed * dt
  let nx := w.x + dirX * 2
  let ny := w.y + dirY * 2
  let m := w.radius
  let nx2 := if nx < m ∨ nx > width - m then max m (min nx (width - m)) else nx
  let ny2 := if ny < m ∨ ny > height - m then max m (min ny (height - m)) else ny
  { w with x := nx2, y := ny2, active := if toggle then !w.active else w.active }

/-! ### Pointer settle timers

Both backends keep the latest touch position in shared values and reset it
through a setTimeout scheduled by the gesture onEnd handler.  Time is
modelled in whole milliseconds; each millisecond first applies the input
events delivered at that instant, then fires any timer scheduled for it. -/

/-- The pointer-related mutable state: touch position, touch-active flag and
the pending setTimeout fire times. -/
structure PointerState where
  tx : ℚ
  ty : ℚ
  active : Bool
  timers : List ℕ
  deriving DecidableEq, Repr

/-- The gesture events the settle logic reacts to. -/
inductive PointerEvent
  | begin (x y : ℚ)
  | ended
  deriving DecidableEq, Repr

/-- The settle delay of the mobile backend onEnd: 800 ms under the simple
and highlight lighting modes, 500 ms otherwise. -/
def settleDelayMobile (mode : LightingMode) : ℕ :=
  if mode = LightingMode.simple || mode = LightingMode.highlight then 800 else 500

/-- Canvas gesture handlers: onBegin stores the position and raises the
flag; onEnd lowers the flag immediately and schedules a reset 500 ms later
(the delay does not depend on the lighting mode). -/
def canvasHandle (t : ℕ) (e : PointerEvent) (s : PointerState) : PointerState :=
  match e with
  | PointerEvent.begin x y => { s with tx := x, ty := y, active := true }
  | PointerEvent.ended => { s with active := false, timers := s.timers ++ [t + 500] }

/-- The canvas timeout callback: it checks the touch-active flag and only
resets the position to the off-canvas sentinel when the flag is down. -/
def canvasFire (t : ℕ) (s : PointerState) : PointerState :=
  if s.timers.contains t then
    let s2 := { s with timers := s.timers.filter (fun f => f ≠ t) }
    if s2.active then s2 else { s2 with tx := -100, ty := -100 }
  else s

/-- Mobile gesture handlers: onBegin stores the position and raises the
flag; onEnd only schedules the delayed reset - the flag stays up until the
timer fires. -/
def mobileHandle (delay : ℕ) (t : ℕ) (e : PointerEvent) (s : PointerState) : PointerState :=
  match e with
  | PointerEvent.begin x y => { s with tx := x, ty := y, active := true }
  | PointerEvent.ended => { s with timers := s.timers ++ [t + delay] }

/-- The mobile timeout callback: it unconditionally resets the position to
the sentinel and lowers the flag, without checking whether a new touch has
begun. -/
def mobileFire (t : ℕ) (s : PointerState) : PointerState :=
  if s.timers.contains t then
    { tx := -100, ty := -100, active := false, timers := s.timers.filter (fun f => f ≠ t) }
  else s

/-- One millisecond of the pointer timeline: apply the events delivered at
instant t, then fire any due timer.  The input timeline is given as the list
of events delivered at each millisecond. -/
def stepMs (handle : ℕ → PointerEvent → PointerState → PointerState)
    (fire : ℕ → PointerState → PointerState)
    (evs : ℕ → List PointerEvent) (t : ℕ) (s : PointerState) : PointerState :=
  fire t ((evs t).foldl (fun st e => handle t e st) s)

/-- Both backends initialise the shared touch position to the off-canvas
sentinel (-100, -100) with the flag down. -/
def initPointer : PointerState :=
  { tx := -100, ty := -100, active := false, timers := [] }

/-- The pointer state after processing every millisecond up to and
including t. -/
def runPointer (handle : ℕ → PointerEvent → PointerState → PointerState)
    (fire : ℕ → PointerState → PointerState)
    (evs : ℕ → List PointerEvent) : ℕ → PointerState
  | 0 => stepMs handle fire evs 0 initPointer
  | t + 1 => stepMs handle fire evs (t + 1) (runPointer handle fire evs t)

/-- The canvas-backend pointer timeline. -/
def runCanvasPointer (evs : ℕ → List PointerEvent) (t : ℕ) : PointerState :=
  runPointer canvasHandle canvasFire evs t

/-- The mobile-backend pointer timeline under a lighting mode. -/
def runMobilePointer (mode : LightingMode) (evs : ℕ → List PointerEvent) (t : ℕ) :
    PointerState :=
  runPointer (mobileHandle (settleDelayMobile mode)) mobileFire evs t

/-- The timeline with a single touch: a pointer-down at time 0 and a release
at time t0, nothing afterwards. -/
def pressRelease (x y : ℚ) (t0 : ℕ) : ℕ → List PointerEvent := fun t =>
  if t = 0 then [PointerEvent.begin x y]
  else if t = t0 then [PointerEvent.ended]
  else []

/-- The timeline with a superseded settle timer: a pointer-down at time 0, a
release at time t0 and a second pointer-down at time t1 before the settle
timer fires. -/
def pressReleasePress (x0 y0 : ℚ) (t0 : ℕ) (x1 y1 : ℚ) (t1 : ℕ) : ℕ → List PointerEvent :=
  fun t =>
  if t = 0 then [PointerEvent.begin x0 y0]
  else if t = t0 then [PointerEvent.ended]
  else if t = t1 then [PointerEvent.begin x1 y1]
  else []

/-! ### Particle system (canvas backend) -/

/-- A particle of the canvas backend.  Life and decay are the exact decimal
values the source computes, kept in ℚ; the position goes through Math.cos
and Math.sin, kept in ℝ. -/
structure Particle where
  x : ℝ
  y : ℝ
  size : ℚ
  color : String
  life : ℚ
  decay : ℚ

/-- One particle as built inside createParticles from the four Math.random()
draws it consumes: angle = r1 * PI * 2, distance = r2 * 10, size =
r3 * 3 + 1, life = 1.0, decay = 0.05 + r4 * 0.05. -/
noncomputable def mkParticle (x y : ℝ) (r1 r2 r3 r4 : ℚ) : Particle :=
  { x := x + Real.cos ((r1 : ℝ) * Real.pi * 2) * ((r2 : ℝ) * 10)
    y := y + Real.sin ((r1 : ℝ) * Real.pi * 2) * ((r2 : ℝ) * 10)
    size := r3 * 3 + 1
    color := "rgba(255, 255, 255, 0.8)"
    life := 1
    decay := 1 / 20 + r4 * (1 / 20) }

/-- Array.prototype.slice(-n): the last n elements (the whole list when it
is shorter). -/
def takeLast (n : ℕ) (l : List α) : List α :=
  l.drop (l.length - n)

/-- createParticles: append the new batch (one particle per random draw
quadruple; the source always draws five) and cap at 50 by dropping the
oldest. -/
noncomputable def createParticles (x y : ℝ) (rs : List (ℚ × ℚ × ℚ × ℚ))
    (prev : List Particle) : List Particle :=
  takeLast 50 (prev ++ rs.map (fun r => mkParticle x y r.1 r.2.1 r.2.2.1 r.2.2.2))

/-- The per-tick life decrement of drawParticles. -/
def decayParticle (p : Particle) : Particle :=
  { p with life := p.life - p.decay }

/-- One drawParticles tick: decrement every life by its decay, then drop
every particle whose life is no longer positive. -/
def updateParticles (ps : List Particle) : List Particle :=
  (ps.map decayParticle).filter (fun p => 0 < p.life)

/-- An interaction history: spawns (with their random draws) and ticks. -/
inductive ParticleOp
  | spawn (x y : ℝ) (rs : List (ℚ × ℚ × ℚ × ℚ))
  | tick

/-- Apply one operation to the particle population. -/
noncomputable def applyParticleOp : ParticleOp → List Particle → List Particle
  | ParticleOp.spawn x y rs, ps => createParticles x y rs ps
  | ParticleOp.tick, ps => updateParticles ps

/-- Run a whole interaction history. -/
noncomputable def runParticleOps : List ParticleOp → List Particle → List Particle
  | [], ps => ps
  | op :: ops, ps => runParticleOps ops (applyParticleOp op ps)

/-! ### Random-palette color selection -/

/-- The canvas backend palette index: (col + row * 3) % palette length. -/
def randomColorIndexCanvas (col row len : ℕ) : ℕ :=
  (col + row * 3) % len

/-- The base color the canvas backend feeds into the intensity blend in
random color mode: the palette entry at the deterministic index when the
palette is non-empty, the primary theme color otherwise. -/
def randomBaseColorCanvas (palette : List String) (primary : String) (col row : ℕ) : String :=
  if 0 < palette.length then
    palette.getD (randomColorIndexCanvas col row palette.length) primary
  else primary

/-- The fallback palette hard-coded in the mobile backend cell worklet. -/
def defaultPaletteMobile : List String :=
  ["#ff0000", "#00ff00", "#0000ff", "#ffff00", "#ff00ff", "#00ffff"]

/-- The mobile backend palette index: (gridX * 3 + gridY * 7) % length. -/
def randomColorIndexMobile (gridX gridY len : ℕ) : ℕ :=
  (gridX * 3 + gridY * 7) % len

/-- The base color the mobile backend picks in random color mode. -/
def randomBaseColorMobile (colorPalette : List String) (gridX gridY : ℕ) : String :=
  let palette := if 0 < colorPalette.length then colorPalette else defaultPaletteMobile
  palette.getD (randomColorIndexMobile gridX gridY palette.length) ""

/-! ### Characterization of the pointer timelines

State of each backend pointer timeline on the press-release and
press-release-press input traces, proved once and shared by the settle-timing
theorems below. -/

lemma settleDelayMobile_ge (mode : LightingMode) : 500 ≤ settleDelayMobile mode := by
  unfold settleDelayMobile
  split <;> norm_num

lemma pressRelease_eq_nil (x y : ℚ) (t0 u : ℕ) (h1 : u ≠ 0) (h2 : u ≠ t0) :
    pressRelease x y t0 u = [] := by
  simp [pressRelease, h1, h2]

lemma stepMs_mobile_quiet (d t : ℕ) (evs : ℕ → List PointerEvent) (s : PointerState)
    (he : evs t = []) (ht : t ∉ s.timers) :
    stepMs (mobileHandle d) mobileFire evs t s = s := by
  simp [stepMs, he, mobileFire, ht]

lemma stepMs_canvas_quiet (t : ℕ) (evs : ℕ → List PointerEvent) (s : PointerState)
    (he : evs t = []) (ht : t ∉ s.timers) :
    stepMs canvasHandle canvasFire evs t s = s := by
  simp [stepMs, he, canvasFire, ht]

lemma runMobile_pressRelease (mode : LightingMode) (x y : ℚ) (t0 : ℕ) (h0 : 0 < t0) (t : ℕ) :
    runMobilePointer mode (pressRelease x y t0) t =
      if t < t0 then ⟨x, y, true, []⟩
      else if t < t0 + settleDelayMobile mode then ⟨x, y, true, [t0 + settleDelayMobile mode]⟩
      else ⟨-100, -100, false, []⟩ := by
  have hd5 : 500 ≤ settleDelayMobile mode := settleDelayMobile_ge mode
  induction t with
  | zero =>
    rw [if_pos h0]
    have he : pressRelease x y t0 0 = [PointerEvent.begin x y] := by simp [pressRelease]
    simp [runMobilePointer, runPointer, stepMs, he, mobileHandle, mobileFire, initPointer]
  | succ t ih =>
    rw [runMobilePointer] at ih ⊢
    rw [runPointer]
    by_cases hA : t + 1 < t0
    · have hprev : runPointer (mobileHandle (settleDelayMobile mode)) mobileFire
          (pressRelease x y t0) t = (⟨x, y, true, []⟩ : PointerState) := by
        rw [ih, if_pos (by omega : t < t0)]
      rw [hprev, if_pos hA]
      exact stepMs_mobile_quiet _ _ _ _
        (pressRelease_eq_nil _ _ _ _ (by omega) (by omega)) (by simp)
    · by_cases hB : t + 1 = t0
      · have hprev : runPointer (mobileHandle (settleDelayMobile mode)) mobileFire
            (pressRelease x y t0) t = (⟨x, y, true, []⟩ : PointerState) := by
          rw [ih, if_pos (by omega : t < t0)]
        have he : pressRelease x y t0 (t + 1) = [PointerEvent.ended] := by
          simp [pressRelease, hB]; omega
        rw [hprev, stepMs, he]
        simp only [List.foldl_cons, List.foldl_nil, mobileHandle]
        rw [if_neg (by omega : ¬ t + 1 < t0), if_pos (by omega : t + 1 < t0 + settleDelayMobile mode)]
        simp [mobileFire, hB, (by omega : ¬ t0 + settleDelayMobile mode = t + 1)]
        omega
      · by_cases hC : t + 1 < t0 + settleDelayMobile mode
        · have hprev : runPointer (mobileHandle (settleDelayMobile mode)) mobileFire
              (pressRelease x y t0) t =
              (⟨x, y, true, [t0 + settleDelayMobile mode]⟩ : PointerState) := by
            rw [ih, if_neg (by omega : ¬ t < t0), if_pos (by omega : t < t0 + settleDelayMobile mode)]
          rw [hprev, if_neg hA, if_pos hC]
          exact stepMs_mobile_quiet _ _ _ _
            (pressRelease_eq_nil _ _ _ _ (by omega) (by omega)) (by simp; omega)
        · by_cases hD : t + 1 = t0 + settleDelayMobile mode
          · have hprev : runPointer (mobileHandle (settleDelayMobile mode)) mobileFire
                (pressRelease x y t0) t =
                (⟨x, y, true, [t0 + settleDelayMobile mode]⟩ : PointerState) := by
              rw [ih, if_neg (by omega : ¬ t < t0),
                if_pos (by omega : t < t0 + settleDelayMobile mode)]
            have he : pressRelease x y t0 (t + 1) = [] :=
              pressRelease_eq_nil _ _ _ _ (by omega) (by omega)
            rw [hprev, stepMs, he]
            simp only [List.foldl_nil]
            rw [if_neg hA, if_neg hC]
            simp [mobileFire, hD]
          · have hprev : runPointer (mobileHandle (settleDelayMobile mode)) mobileFire
                (pressRelease x y t0) t =
                (⟨-100, -100, false, []⟩ : PointerState) := by
              rw [ih, if_neg (by omega : ¬ t < t0),
                if_neg (by omega : ¬ t < t0 + settleDelayMobile mode)]
            rw [hprev, if_neg hA, if_neg hC]
            exact stepMs_mobile_quiet _ _ _ _
              (pressRelease_eq_nil _ _ _ _ (by omega) (by omega)) (by simp)


lemma runCanvas_pressRelease (x y : ℚ) (t0 : ℕ) (h0 : 0 < t0) (t : ℕ) :
    runCanvasPointer (pressRelease x y t0) t =
      if t < t0 then ⟨x, y, true, []⟩
      else if t < t0 + 500 then ⟨x, y, false, [t0 + 500]⟩
      else ⟨-100, -100, false, []⟩ := by
  induction t with
  | zero =>
    rw [if_pos h0]
    have he : pressRelease x y t0 0 = [PointerEvent.begin x y] := by simp [pressRelease]
    simp [runCanvasPointer, runPointer, stepMs, he, canvasHandle, canvasFire, initPointer]
  | succ t ih =>
    rw [runCanvasPointer] at ih ⊢
    rw [runPointer]
    by_cases hA : t + 1 < t0
    · have hprev : runPointer canvasHandle canvasFire (pressRelease x y t0) t =
          (⟨x, y, true, []⟩ : PointerState) := by
        rw [ih, if_pos (by omega : t < t0)]
      rw [hprev, if_pos hA]
      exact stepMs_canvas_quiet _ _ _
        (pressRelease_eq_nil _ _ _ _ (by omega) (by omega)) (by simp)
    · by_cases hB : t + 1 = t0
      · have hprev : runPointer canvasHandle canvasFire (pressRelease x y t0) t =
            (⟨x, y, true, []⟩ : PointerState) := by
          rw [ih, if_pos (by omega : t < t0)]
        have he : pressRelease x y t0 (t + 1) = [PointerEvent.ended] := by
          simp [pressRelease, hB]; omega
        rw [hprev, stepMs, he]
        simp only [List.foldl_cons, List.foldl_nil, canvasHandle]
        rw [if_neg (by omega : ¬ t + 1 < t0), if_pos (by omega : t + 1 < t0 + 500)]
        simp [canvasFire, hB]
      · by_cases hC : t + 1 < t0 + 500
        · have hprev : runPointer canvasHandle canvasFire (pressRelease x y t0) t =
              (⟨x, y, false, [t0 + 500]⟩ : PointerState) := by
            rw [ih, if_neg (by omega : ¬ t < t0), if_pos (by omega : t < t0 + 500)]
          rw [hprev, if_neg hA, if_pos hC]
          exact stepMs_canvas_quiet _ _ _
            (pressRelease_eq_nil _ _ _ _ (by omega) (by omega)) (by simp; omega)
        · by_cases hD : t + 1 = t0 + 500
          · have hprev : runPointer canvasHandle canvasFire (pressRelease x y t0) t =
                (⟨x, y, false, [t0 + 500]⟩ : PointerState) := by
              rw [ih, if_neg (by omega : ¬ t < t0), if_pos (by omega : t < t0 + 500)]
            have he : pressRelease x y t0 (t + 1) = [] :=
              pressRelease_eq_nil _ _ _ _ (by omega) (by omega)
            rw [hprev, stepMs, he]
            simp only [List.foldl_nil]
            rw [if_neg hA, if_neg hC]
            simp [canvasFire, hD]
          · have hprev : runPointer canvasHandle canvasFire (pressRelease x y t0) t =
                (⟨-100, -100, false, []⟩ : PointerState) := by
              rw [ih, if_neg (by omega : ¬ t < t0), if_neg (by omega : ¬ t < t0 + 500)]
            rw [hprev, if_neg hA, if_neg hC]
            exact stepMs_canvas_quiet _ _ _
              (pressRelease_eq_nil _ _ _ _ (by omega) (by omega)) (by simp)

lemma pressReleasePress_eq_nil (x0 y0 : ℚ) (t0 : ℕ) (x1 y1 : ℚ) (t1 u : ℕ)
    (h1 : u ≠ 0) (h2 : u ≠ t0) (h3 : u ≠ t1) :
    pressReleasePress x0 y0 t0 x1 y1 t1 u = [] := by
  simp [pressReleasePress, h1, h2, h3]

lemma runCanvas_pressReleasePress (x0 y0 : ℚ) (t0 : ℕ) (x1 y1 : ℚ) (t1 : ℕ)
    (h0 : 0 < t0) (h01 : t0 < t1) (h1 : t1 < t0 + 500) (t : ℕ) :
    runCanvasPointer (pressReleasePress x0 y0 t0 x1 y1 t1) t =
      if t < t0 then ⟨x0, y0, true, []⟩
      else if t < t1 then ⟨x0, y0, false, [t0 + 500]⟩
      else if t < t0 + 500 then ⟨x1, y1, true, [t0 + 500]⟩
      else ⟨x1, y1, true, []⟩ := by
  induction t with
  | zero =>
    rw [if_pos h0]
    have he : pressReleasePress x0 y0 t0 x1 y1 t1 0 = [PointerEvent.begin x0 y0] := by
      simp [pressReleasePress]
    simp [runCanvasPointer, runPointer, stepMs, he, canvasHandle, canvasFire, initPointer]
  | succ t ih =>
    rw [runCanvasPointer] at ih ⊢
    rw [runPointer]
    by_cases hA : t + 1 < t0
    · have hprev : runPointer canvasHandle canvasFire (pressReleasePress x0 y0 t0 x1 y1 t1) t =
          (⟨x0, y0, true, []⟩ : PointerState) := by
        rw [ih, if_pos (by omega : t < t0)]
      rw [hprev, if_pos hA]
      exact stepMs_canvas_quiet _ _ _
        (pressReleasePress_eq_nil _ _ _ _ _ _ _ (by omega) (by omega) (by omega)) (by simp)
    · by_cases hB : t + 1 = t0
      · have hprev : runPointer canvasHandle canvasFire (pressReleasePress x0 y0 t0 x1 y1 t1) t =
            (⟨x0, y0, true, []⟩ : PointerState) := by
          rw [ih, if_pos (by omega : t < t0)]
        have he : pressReleasePress x0 y0 t0 x1 y1 t1 (t + 1) = [PointerEvent.ended] := by
          simp [pressReleasePress, hB]; omega
        rw [hprev, stepMs, he]
        simp only [List.foldl_cons, List.foldl_nil, canvasHandle]
        rw [if_neg (by omega : ¬ t + 1 < t0), if_pos (by omega : t + 1 < t1)]
        simp [canvasFire, hB]
      · by_cases hC : t + 1 < t1
        · have hprev : runPointer canvasHandle canvasFire
              (pressReleasePress x0 y0 t0 x1 y1 t1) t =
              (⟨x0, y0, false, [t0 + 500]⟩ : PointerState) := by
            rw [ih, if_neg (by omega : ¬ t < t0), if_pos (by omega : t < t1)]
          rw [hprev, if_neg hA, if_pos hC]
          exact stepMs_canvas_quiet _ _ _
            (pressReleasePress_eq_nil _ _ _ _ _ _ _ (by omega) (by omega) (by omega))
            (by simp; omega)
        · by_cases hD : t + 1 = t1
          · have hprev : runPointer canvasHandle canvasFire
                (pressReleasePress x0 y0 t0 x1 y1 t1) t =
                (⟨x0, y0, false, [t0 + 500]⟩ : PointerState) := by
              rw [ih, if_neg (by omega : ¬ t < t0), if_pos (by omega : t < t1)]
            have he : pressReleasePress x0 y0 t0 x1 y1 t1 (t + 1) =
                [PointerEvent.begin x1 y1] := by
              rw [show t + 1 = t1 from hD]
              simp only [pressReleasePress]
              rw [if_neg (by omega : ¬ t1 = 0), if_neg (by omega : ¬ t1 = t0)]
              simp
            rw [hprev, stepMs, he]
            simp only [List.foldl_cons, List.foldl_nil, canvasHandle]
            rw [if_neg hA, if_neg hC, if_pos (by omega : t + 1 < t0 + 500)]
            simp [canvasFire, hD, (by omega : ¬ t0 + 500 = t + 1)]
            omega
          · by_cases hE : t + 1 < t0 + 500
            · have hprev : runPointer canvasHandle canvasFire
                  (pressReleasePress x0 y0 t0 x1 y1 t1) t =
                  (⟨x1, y1, true, [t0 + 500]⟩ : PointerState) := by
                rw [ih, if_neg (by omega : ¬ t < t0), if_neg (by omega : ¬ t < t1),
                  if_pos (by omega : t < t0 + 500)]
              rw [hprev, if_neg hA, if_neg hC, if_pos hE]
              exact stepMs_canvas_quiet _ _ _
                (pressReleasePress_eq_nil _ _ _ _ _ _ _ (by omega) (by omega) (by omega))
                (by simp; omega)
            · by_cases hF : t + 1 = t0 + 500
              · have hprev : runPointer canvasHandle canvasFire
                    (pressReleasePress x0 y0 t0 x1 y1 t1) t =
                    (⟨x1, y1, true, [t0 + 500]⟩ : PointerState) := by
                  rw [ih, if_neg (by omega : ¬ t < t0), if_neg (by omega : ¬ t < t1),
                    if_pos (by omega : t < t0 + 500)]
                have he : pressReleasePress x0 y0 t0 x1 y1 t1 (t + 1) = [] :=
                  pressReleasePress_eq_nil _ _ _ _ _ _ _ (by omega) (by omega) (by omega)
                rw [hprev, stepMs, he]
                simp only [List.foldl_nil]
                rw [if_neg hA, if_neg hC, if_neg hE]
                simp [canvasFire, hF]
              · have hprev : runPointer canvasHandle canvasFire
                    (pressReleasePress x0 y0 t0 x1 y1 t1) t =
                    (⟨x1, y1, true, []⟩ : PointerState) := by
                  rw [ih, if_neg (by omega : ¬ t < t0), if_neg (by omega : ¬ t < t1),
                    if_neg (by omega : ¬ t < t0 + 500)]
                rw [hprev, if_neg hA, if_neg hC, if_neg hE]
                exact stepMs_canvas_quiet _ _ _
                  (pressReleasePress_eq_nil _ _ _ _ _ _ _ (by omega) (by omega) (by omega))
                  (by simp)

lemma runMobile_pressReleasePress (mode : LightingMode) (x0 y0 : ℚ) (t0 : ℕ) (x1 y1 : ℚ)
    (t1 : ℕ) (h0 : 0 < t0) (h01 : t0 < t1) (h1 : t1 < t0 + 500) (t : ℕ) :
    runMobilePointer mode (pressReleasePress x0 y0 t0 x1 y1 t1) t =
      if t < t0 then ⟨x0, y0, true, []⟩
      else if t < t1 then ⟨x0, y0, true, [t0 + settleDelayMobile mode]⟩
      else if t < t0 + settleDelayMobile mode then ⟨x1, y1, true, [t0 + settleDelayMobile mode]⟩
      else ⟨-100, -100, false, []⟩ := by
  have hd5 : 500 ≤ settleDelayMobile mode := settleDelayMobile_ge mode
  induction t with
  | zero =>
    rw [if_pos h0]
    have he : pressReleasePress x0 y0 t0 x1 y1 t1 0 = [PointerEvent.begin x0 y0] := by
      simp [pressReleasePress]
    simp [runMobilePointer, runPointer, stepMs, he, mobileHandle, mobileFire, initPointer]
  | succ t ih =>
    rw [runMobilePointer] at ih ⊢
    rw [runPointer]
    by_cases hA : t + 1 < t0
    · have hprev : runPointer (mobileHandle (settleDelayMobile mode)) mobileFire
          (pressReleasePress x0 y0 t0 x1 y1 t1) t = (⟨x0, y0, true, []⟩ : PointerState) := by
        rw [ih, if_pos (by omega : t < t0)]
      rw [hprev, if_pos hA]
      exact stepMs_mobile_quiet _ _ _ _
        (pressReleasePress_eq_nil _ _ _ _ _ _ _ (by omega) (by omega) (by omega)) (by simp)
    · by_cases hB : t + 1 = t0
      · have hprev : runPointer (mobileHandle (settleDelayMobile mode)) mobileFire
            (pressReleasePress x0 y0 t0 x1 y1 t1) t = (⟨x0, y0, true, []⟩ : PointerState) := by
          rw [ih, if_pos (by omega : t < t0)]
        have he : pressReleasePress x0 y0 t0 x1 y1 t1 (t + 1) = [PointerEvent.ended] := by
          simp [pressReleasePress, hB]; omega
        rw [hprev, stepMs, he]
        simp only [List.foldl_cons, List.foldl_nil, mobileHandle]
        rw [if_neg (by omega : ¬ t + 1 < t0), if_pos (by omega : t + 1 < t1)]
        simp [mobileFire, hB, (by omega : ¬ t0 + settleDelayMobile mode = t + 1)]
        omega
      · by_cases hC : t + 1 < t1
        · have hprev : runPointer (mobileHandle (settleDelayMobile mode)) mobileFire
              (pressReleasePress x0 y0 t0 x1 y1 t1) t =
              (⟨x0, y0, true, [t0 + settleDelayMobile mode]⟩ : PointerState) := by
            rw [ih, if_neg (by omega : ¬ t < t0), if_pos (by omega : t < t1)]
          rw [hprev, if_neg hA, if_pos hC]
          exact stepMs_mobile_quiet _ _ _ _
            (pressReleasePress_eq_nil _ _ _ _ _ _ _ (by omega) (by omega) (by omega))
            (by simp; omega)
        · by_cases hD : t + 1 = t1
          · have hprev : runPointer (mobileHandle (settleDelayMobile mode)) mobileFire
                (pressReleasePress x0 y0 t0 x1 y1 t1) t =
                (⟨x0, y0, true, [t0 + settleDelayMobile mode]⟩ : PointerState) := by
              rw [ih, if_neg (by omega : ¬ t < t0), if_pos (by omega : t < t1)]
            have he : pressReleasePress x0 y0 t0 x1 y1 t1 (t + 1) =
                [PointerEvent.begin x1 y1] := by
              rw [show t + 1 = t1 from hD]
              simp only [pressReleasePress]
              rw [if_neg (by omega : ¬ t1 = 0), if_neg (by omega : ¬ t1 = t0)]
              simp
            rw [hprev, stepMs, he]
            simp only [List.foldl_cons, List.foldl_nil, mobileHandle]
            rw [if_neg hA, if_neg hC, if_pos (by omega : t + 1 < t0 + settleDelayMobile mode)]
            simp [mobileFire, hD, (by omega : ¬ t0 + settleDelayMobile mode = t + 1)]
            omega
          · by_cases hE : t + 1 < t0 + settleDelayMobile mode
            · have hprev : runPointer (mobileHandle (settleDelayMobile mode)) mobileFire
                  (pressReleasePress x0 y0 t0 x1 y1 t1) t =
                  (⟨x1, y1, true, [t0 + settleDelayMobile mode]⟩ : PointerState) := by
                rw [ih, if_neg (by omega : ¬ t < t0), if_neg (by omega : ¬ t < t1),
                  if_pos (by omega : t < t0 + settleDelayMobile mode)]
              rw [hprev, if_neg hA, if_neg hC, if_pos hE]
              exact stepMs_mobile_quiet _ _ _ _
                (pressReleasePress_eq_nil _ _ _ _ _ _ _ (by omega) (by omega) (by omega))
                (by simp; omega)
            · by_cases hF : t + 1 = t0 + settleDelayMobile mode
              · have hprev : runPointer (mobileHandle (settleDelayMobile mode)) mobileFire
                    (pressReleasePress x0 y0 t0 x1 y1 t1) t =
                    (⟨x1, y1, true, [t0 + settleDelayMobile mode]⟩ : PointerState) := by
                  rw [ih, if_neg (by omega : ¬ t < t0), if_neg (by omega : ¬ t < t1),
                    if_pos (by omega : t < t0 + settleDelayMobile mode)]
                have he : pressReleasePress x0 y0 t0 x1 y1 t1 (t + 1) = [] :=
                  pressReleasePress_eq_nil _ _ _ _ _ _ _ (by omega) (by omega) (by omega)
                rw [hprev, stepMs, he]
                simp only [List.foldl_nil]
                rw [if_neg hA, if_neg hC, if_neg hE]
                simp [mobileFire, hF]
              · have hprev : runPointer (mobileHandle (settleDelayMobile mode)) mobileFire
                    (pressReleasePress x0 y0 t0 x1 y1 t1) t =
                    (⟨-100, -100, false, []⟩ : PointerState) := by
                  rw [ih, if_neg (by omega : ¬ t < t0), if_neg (by omega : ¬ t < t1),
                    if_neg (by omega : ¬ t < t0 + settleDelayMobile mode)]
                rw [hprev, if_neg hA, if_neg hC, if_neg hE]
                exact stepMs_mobile_quiet _ _ _ _
                  (pressReleasePress_eq_nil _ _ _ _ _ _ _ (by omega) (by omega) (by omega))
                  (by simp)

/-! ### Small arithmetic lemmas about the color model -/

lemma clamp01_zero : clamp01 0 = 0 := by norm_num [clamp01]

lemma clamp01_one : clamp01 1 = 1 := by norm_num [clamp01]

lemma clamp01_of_nonpos {f : ℚ} (hf : f ≤ 0) : clamp01 f = 0 := by
  unfold clamp01
  rw [min_eq_right (hf.trans (by norm_num)), max_eq_left hf]

lemma clamp01_of_one_le {f : ℚ} (hf : 1 ≤ f) : clamp01 f = 1 := by
  unfold clamp01
  rw [min_eq_left hf, max_eq_right (by norm_num)]

lemma jsRound_natCast (n : ℕ) : jsRound (some (n : ℚ)) = some (n : ℚ) := by
  unfold jsRound
  simp only [Option.map_some']
  congr 1
  have h0 : ⌊(1 : ℚ) / 2⌋ = 0 := by
    rw [Int.floor_eq_zero_iff]
    norm_num [Set.mem_Ico]
  rw [Int.floor_nat_add, h0]
  norm_num

/-! ### Claim C2: totality and fallback behaviour of parseColor -/

/-- C2, amended: the mobile-backend parseColor is total and never yields a
NaN channel on any input; it accepts three-digit hex, six-digit hex and
rgb()/rgba() syntax, maps the malformed string "not-a-color" to the opaque
black fallback and the empty string to the fully transparent fallback.  (The
canvas-backend parseColor, by contrast, mishandles three-digit hex - see the
counterexample.) -/
theorem c2_mobile_parse_total_and_fallback :
    (∀ s : String, (parseColorMobile s).r.isSome ∧ (parseColorMobile s).g.isSome ∧
      (parseColorMobile s).b.isSome ∧ (parseColorMobile s).a.isSome) ∧
    parseColorMobile "#abc" = ⟨some 170, some 187, some 204, some 1⟩ ∧
    parseColorMobile "#aabbcc" = ⟨some 170, some 187, some 204, some 1⟩ ∧
    parseColorMobile "rgb(12, 34, 56)" = ⟨some 12, some 34, some 56, some 1⟩ ∧
    parseColorMobile "rgba(12, 34, 56, 0.5)" = ⟨some 12, some 34, some 56, some (1 / 2)⟩ ∧
    parseColorMobile "not-a-color" = ⟨some 0, some 0, some 0, some 1⟩ ∧
    parseColorMobile "" = ⟨some 0, some 0, some 0, some 0⟩ := by
  refine ⟨?_, by decide, by decide, by decide, ?_, by decide, by decide⟩
  · intro s
    unfold parseColorMobile
    by_cases h0 : s.data.isEmpty
    · simp [h0]
    · simp only [h0, Bool.false_eq_true, if_false]
      by_cases h1 : startsWithL ['r', 'g', 'b'] s.data
      · simp only [h1, if_true]
        rcases hm : rgbaSearch s.data with _ | ⟨d1, d2, d3, al⟩
        · by_cases h2 : startsWithL ['#'] s.data <;> simp [h2]
        · simp
      · simp only [h1, Bool.false_eq_true, if_false]
        by_cases h2 : startsWithL ['#'] s.data <;> simp [h2]
  · simp +decide [parseColorMobile, rgbaSearch, rgbaMatchAt, rgbaOpen, digits1, digitsDot1,
      commaWsNum, jsParseFloat, natOfDigitsDec, fracValue, startsWithL, isWs]
    norm_num

/-- C2, counterexample: the canvas-backend parseColor on the three-digit hex
string "#abc" slices the fixed six-digit positions, so the blue slice (5,7)
is empty and parseInt returns NaN: the accepted input "#abc" produces a NaN
blue channel, contradicting the claim that both hex forms are accepted with
no NaN channel values. -/
theorem c2_canvas_hex3_nan :
    (parseColorCanvas "#abc").b = none ∧
    (parseColorCanvas "#abc").r = some 171 ∧ (parseColorCanvas "#abc").g = some 12 := by
  decide

/-! ### Claim C5: interpolation endpoints and factor clamping -/

/-- C5: for any two valid colors the canvas-backend interpolateColor
reproduces the first color exactly at factor 0 and the second at factor 1
(at the level of the parsed channel record it builds before formatting the
rgba string, rounding identities included), and any factor below 0 or above
1 is first clamped, so the result coincides with the factor-0 and factor-1
results respectively. -/
theorem c5_interpolate_endpoints_and_clamp :
    (∀ A B : String, ValidColor A → ValidColor B →
      interpolateColor A B 0 = parseColorCanvas A ∧
      interpolateColor A B 1 = parseColorCanvas B) ∧
    (∀ (A B : String) (f : ℚ), f ≤ 0 → interpolateColor A B f = interpolateColor A B 0) ∧
    (∀ (A B : String) (f : ℚ), 1 ≤ f → interpolateColor A B f = interpolateColor A B 1) := by
  refine ⟨?_, ?_, ?_⟩
  · rintro A B ⟨⟨ra, hra⟩, ⟨ga, hga⟩, ⟨ba, hba⟩, haA⟩ ⟨⟨rb, hrb⟩, ⟨gb, hgb⟩, ⟨bb, hbb⟩, haB⟩
    obtain ⟨aa, haa⟩ := Option.isSome_iff_exists.mp haA
    obtain ⟨ab, hab⟩ := Option.isSome_iff_exists.mp haB
    have hA : parseColorCanvas A = ⟨some (ra : ℚ), some (ga : ℚ), some (ba : ℚ), some aa⟩ :=
      JsRGBA.ext hra hga hba haa
    have hB : parseColorCanvas B = ⟨some (rb : ℚ), some (gb : ℚ), some (bb : ℚ), some ab⟩ :=
      JsRGBA.ext hrb hgb hbb hab
    constructor
    · simp only [interpolateColor, hA, hB, clamp01_zero, jsAdd, jsSub, jsMul]
      ring_nf
      simp [jsRound_natCast]
    · simp only [interpolateColor, hA, hB, clamp01_one, jsAdd, jsSub, jsMul]
      ring_nf
      simp [jsRound_natCast]
  · intro A B f hf
    unfold interpolateColor
    rw [clamp01_of_nonpos hf, clamp01_zero]
  · intro A B f hf
    unfold interpolateColor
    rw [clamp01_of_one_le hf, clamp01_one]

/-- C5, witness: the endpoint and clamping facts instantiated on the
concrete colors "#aabbcc" and "rgba(10, 20, 30, 1)" with factors 0 and 2. -/
theorem c5_witness :
    interpolateColor "#aabbcc" "rgba(10, 20, 30, 1)" 0 = parseColorCanvas "#aabbcc" ∧
    interpolateColor "#aabbcc" "rgba(10, 20, 30, 1)" 2 =
      interpolateColor "#aabbcc" "rgba(10, 20, 30, 1)" 1 := by
  constructor
  · exact (c5_interpolate_endpoints_and_clamp.1 "#aabbcc" "rgba(10, 20, 30, 1)"
      ⟨⟨170, rfl⟩, ⟨187, rfl⟩, ⟨204, rfl⟩, rfl⟩
      ⟨⟨10, rfl⟩, ⟨20, rfl⟩, ⟨30, rfl⟩, rfl⟩).1
  · exact c5_interpolate_endpoints_and_clamp.2.2 "#aabbcc" "rgba(10, 20, 30, 1)" 2 (by norm_num)

/-! ### Claim C8: deterministic palette index in random color mode -/

/-- C8, amended: in random color mode with a non-empty palette the canvas
backend picks the base color at index (col + row * 3) mod length; the index
is always in range.  (The mobile backend uses a different formula - see the
counterexample.) -/
theorem c8_canvas_random_palette_index (palette : List String) (primary : String)
    (col row : ℕ) (h : 0 < palette.length) :
    randomBaseColorCanvas palette primary col row =
      palette.get ⟨(col + row * 3) % palette.length, Nat.mod_lt _ h⟩ := by
  unfold randomBaseColorCanvas randomColorIndexCanvas
  rw [if_pos h, List.getD_eq_getElem _ _ (Nat.mod_lt _ h)]
  simp

/-- C8, witness: with palette ["#ff0000", "#00ff00"] the cell at col 1,
row 0 gets index 1 and base color "#00ff00". -/
theorem c8_witness :
    randomBaseColorCanvas ["#ff0000", "#00ff00"] "#ffffff" 1 0 = "#00ff00" := by
  rw [c8_canvas_random_palette_index ["#ff0000", "#00ff00"] "#ffffff" 1 0 (by norm_num)]
  rfl

/-- C8, counterexample: the mobile backend indexes the palette with
(gridX * 3 + gridY * 7) mod length, not (col + row * 3) mod length: for the
cell at column 0, row 1 of a five-color palette the mobile backend picks
index 2, color "#0000ff", while the claimed rule gives index 3, "#ffff00". -/
theorem c8_mobile_index_differs :
    randomBaseColorMobile ["#ff0000", "#00ff00", "#0000ff", "#ffff00", "#ff00ff"] 0 1 =
      "#0000ff" ∧
    ["#ff0000", "#00ff00", "#0000ff", "#ffff00", "#ff00ff"].getD ((0 + 1 * 3) % 5) "" =
      "#ffff00" ∧
    ("#0000ff" : String) ≠ "#ffff00" := by
  refine ⟨by decide, by decide, by decide⟩

/-! ### Claim C6: settle timing after pointer release -/

/-- C6, amended: in the mobile backend, after a release at time t0 with no
further touch, the touch-active flag stays up (with the touch position
retained) for the whole settle delay - 800 ms under the simple and highlight
lighting modes, 500 ms otherwise - and from the moment the timer fires the
flag is down and the position is the off-canvas sentinel.  (The canvas
backend clears the flag immediately on release and always uses a 500 ms
delay regardless of lighting mode - see the counterexample.) -/
theorem c6_mobile_settle_timing (mode : LightingMode) (x y : ℚ) (t0 t : ℕ) (h0 : 0 < t0) :
    (t0 ≤ t → t < t0 + settleDelayMobile mode →
      (runMobilePointer mode (pressRelease x y t0) t).active = true) ∧
    (t0 + settleDelayMobile mode ≤ t →
      (runMobilePointer mode (pressRelease x y t0) t).active = false ∧
      (runMobilePointer mode (pressRelease x y t0) t).tx = -100 ∧
      (runMobilePointer mode (pressRelease x y t0) t).ty = -100) ∧
    settleDelayMobile LightingMode.simple = 800 ∧
    settleDelayMobile LightingMode.highlight = 800 ∧
    settleDelayMobile LightingMode.gradient = 500 ∧
    settleDelayMobile LightingMode.pulse = 500 ∧
    settleDelayMobile LightingMode.solid = 500 ∧
    settleDelayMobile LightingMode.uniform = 500 := by
  refine ⟨?_, ?_, rfl, rfl, rfl, rfl, rfl, rfl⟩
  · intro h1 h2
    rw [runMobile_pressRelease mode x y t0 h0 t, if_neg (by omega), if_pos h2]
  · intro h1
    rw [runMobile_pressRelease mode x y t0 h0 t, if_neg (by omega), if_neg (by omega)]
    exact ⟨rfl, rfl, rfl⟩

/-- C6, witness: released at 100 ms under the simple mode, the pointer is
still active at 850 ms and inactive at 900 ms. -/
theorem c6_witness :
    (runMobilePointer LightingMode.simple (pressRelease 5 6 100) 850).active = true ∧
    (runMobilePointer LightingMode.simple (pressRelease 5 6 100) 900).active = false := by
  constructor
  · exact (c6_mobile_settle_timing LightingMode.simple 5 6 100 850 (by norm_num)).1
      (by norm_num) (by decide)
  · exact ((c6_mobile_settle_timing LightingMode.simple 5 6 100 900 (by norm_num)).2.1
      (by decide)).1

/-- C6, counterexample: the canvas backend contradicts the claim.  Its onEnd
handler has no lighting-mode dependence at all and clears the touch-active
flag immediately: after a release at 100 ms the flag is already down at
150 ms, and the position is reset at the fixed 500 ms delay, so at 700 ms -
inside the 800 ms window the claim requires under simple/highlight - the
pointer is fully inactive. -/
theorem c6_canvas_counterexample :
    (runCanvasPointer (pressRelease 5 6 100) 150).active = false ∧
    (runCanvasPointer (pressRelease 5 6 100) 700).tx = -100 ∧
    (runCanvasPointer (pressRelease 5 6 100) 700).active = false := by
  refine ⟨?_, ?_, ?_⟩
  · rw [runCanvas_pressRelease 5 6 100 (by norm_num) 150, if_neg (by omega), if_pos (by omega)]
  · rw [runCanvas_pressRelease 5 6 100 (by norm_num) 700, if_neg (by omega), if_neg (by omega)]
  · rw [runCanvas_pressRelease 5 6 100 (by norm_num) 700, if_neg (by omega), if_neg (by omega)]

/-! ### Claim C7: superseded settle timers -/

/-- C7, amended: in the canvas backend a pointer-down arriving after end()
but before the settle timer fires supersedes the timer: the timeout callback
checks the touch-active flag at fire time, finds it up, and leaves the
pointer position and interaction state unchanged.  (In the mobile backend
the callback resets unconditionally - see the counterexample.) -/
theorem c7_canvas_superseded_timer_noop (x0 y0 x1 y1 : ℚ) (t0 t1 t : ℕ)
    (h0 : 0 < t0) (h01 : t0 < t1) (h1 : t1 < t0 + 500) (ht : t1 ≤ t) :
    (runCanvasPointer (pressReleasePress x0 y0 t0 x1 y1 t1) t).tx = x1 ∧
    (runCanvasPointer (pressReleasePress x0 y0 t0 x1 y1 t1) t).ty = y1 ∧
    (runCanvasPointer (pressReleasePress x0 y0 t0 x1 y1 t1) t).active = true := by
  rw [runCanvas_pressReleasePress x0 y0 t0 x1 y1 t1 h0 h01 h1 t]
  by_cases h : t < t0 + 500
  · rw [if_neg (by omega), if_neg (by omega), if_pos h]
    exact ⟨rfl, rfl, rfl⟩
  · rw [if_neg (by omega), if_neg (by omega), if_neg h]
    exact ⟨rfl, rfl, rfl⟩

/-- C7, witness: release at 100 ms, new pointer-down at 300 ms; when the
superseded canvas timer fires at 600 ms the pointer still holds the new
touch position and stays active. -/
theorem c7_witness :
    (runCanvasPointer (pressReleasePress 5 6 100 7 8 300) 600).tx = 7 ∧
    (runCanvasPointer (pressReleasePress 5 6 100 7 8 300) 600).active = true := by
  refine ⟨?_, ?_⟩
  · exact (c7_canvas_superseded_timer_noop 5 6 7 8 100 300 600 (by norm_num) (by norm_num)
      (by norm_num) (by norm_num)).1
  · exact (c7_canvas_superseded_timer_noop 5 6 7 8 100 300 600 (by norm_num) (by norm_num)
      (by norm_num) (by norm_num)).2.2

/-- C7, counterexample: in the mobile backend the superseded timer is not a
no-op.  With a release at 100 ms (delay 500 ms) and a new pointer-down at
300 ms, the new touch is live at 599 ms, but the timer fires at 600 ms
without checking the pointer-active flag and resets the position to the
sentinel and the flag to inactive, clobbering the live touch. -/
theorem c7_mobile_timer_clobbers :
    (runMobilePointer LightingMode.gradient (pressReleasePress 5 6 100 7 8 300) 599).tx = 7 ∧
    (runMobilePointer LightingMode.gradient
      (pressReleasePress 5 6 100 7 8 300) 599).active = true ∧
    (runMobilePointer LightingMode.gradient (pressReleasePress 5 6 100 7 8 300) 600).tx = -100 ∧
    (runMobilePointer LightingMode.gradient
      (pressReleasePress 5 6 100 7 8 300) 600).active = false := by
  have h599 := runMobile_pressReleasePress LightingMode.gradient 5 6 100 7 8 300
    (by norm_num) (by norm_num) (by norm_num) 599
  have h600 := runMobile_pressReleasePress LightingMode.gradient 5 6 100 7 8 300
    (by norm_num) (by norm_num) (by norm_num) 600
  rw [show settleDelayMobile LightingMode.gradient = 500 from rfl] at h599 h600
  rw [h599, h600]
  norm_num

/-! ### Claim C9: particle lifecycle invariants -/

/-- C9: in the canvas particle system, a particle's life strictly decreases
on every tick (its decay rate is positive: createParticles draws it as
0.05 + random * 0.05), every particle still in the population after a tick
has positive life (particles are culled as soon as life reaches 0), and
under any sequence of spawns and ticks the population never exceeds the cap
of 50, enforced by slice(-50) dropping the oldest particles. -/
theorem c9_particle_invariants :
    (∀ p : Particle, 0 < p.decay → (decayParticle p).life < p.life) ∧
    (∀ (x y : ℝ) (r1 r2 r3 r4 : ℚ), 0 ≤ r4 → 0 < (mkParticle x y r1 r2 r3 r4).decay) ∧
    (∀ (ps : List Particle) (p : Particle), p ∈ updateParticles ps → 0 < p.life) ∧
    (∀ (ops : List ParticleOp) (ps : List Particle), ps.length ≤ 50 →
      (runParticleOps ops ps).length ≤ 50) := by
  refine ⟨?_, ?_, ?_, ?_⟩
  · intro p hp
    simp only [decayParticle]
    linarith
  · intro x y r1 r2 r3 r4 h4
    simp only [mkParticle]
    have := mul_nonneg h4 (by norm_num : (0 : ℚ) ≤ 1 / 20)
    linarith
  · intro ps p hp
    simp only [updateParticles, List.mem_filter, decide_eq_true_eq] at hp
    exact hp.2
  · intro ops
    induction ops with
    | nil =>
      intro ps h
      simpa [runParticleOps] using h
    | cons op rest ih =>
      intro ps h
      rw [runParticleOps]
      apply ih
      cases op with
      | spawn x y rs =>
        simp only [applyParticleOp, createParticles, takeLast, List.length_drop]
        omega
      | tick =>
        simp only [applyParticleOp, updateParticles]
        calc ((ps.map decayParticle).filter (fun p => 0 < p.life)).length
            ≤ (ps.map decayParticle).length := List.length_filter_le _ _
          _ = ps.length := List.length_map _ _
          _ ≤ 50 := h

/-- C9, witness: the invariants instantiated on a concrete particle with
decay 0.05 and on a one-tick history from the empty population. -/
theorem c9_witness :
    (decayParticle ⟨0, 0, 1, "x", 1, 1 / 20⟩).life < 1 ∧
    (runParticleOps [ParticleOp.tick] []).length ≤ 50 := by
  constructor
  · exact c9_particle_invariants.1 ⟨0, 0, 1, "x", 1, 1 / 20⟩ (by norm_num)
  · exact c9_particle_invariants.2.2.2 [ParticleOp.tick] [] (by norm_num)

/-! ### Claim C3: wave source bounding and reflection -/

/-- One canvas wave tick keeps a source inside the canvas rectangle: the
bounce clamp max(0, min(_, bound)) lands in [0, bound] whenever the
coordinate escapes, and a coordinate that does not escape is in range by the
failed bounce test itself. -/
lemma updateWaveSource_inBounds (W H time dt : ℝ) (hW : 0 ≤ W) (hH : 0 ≤ H)
    (w : WaveSource) (hw : waveInBounds W H w) :
    waveInBounds W H (updateWaveSource W H time dt w) := by
  unfold updateWaveSource
  by_cases ha : w.active = true
  · rw [if_pos ha]
    refine ⟨?_, ?_, ?_, ?_⟩
    · by_cases hx : (moveWave time dt w).1 < 0 ∨ (moveWave time dt w).1 > W
      · simp only [hx, if_true]
        exact le_max_left 0 _
      · simp only [hx, if_false]
        push_neg at hx
        exact hx.1
    · by_cases hx : (moveWave time dt w).1 < 0 ∨ (moveWave time dt w).1 > W
      · simp only [hx, if_true]
        exact max_le hW (min_le_right _ _)
      · simp only [hx, if_false]
        push_neg at hx
        exact hx.2
    · by_cases hy : (moveWave time dt w).2 < 0 ∨ (moveWave time dt w).2 > H
      · simp only [hy, if_true]
        exact le_max_left 0 _
      · simp only [hy, if_false]
        push_neg at hy
        exact hy.1
    · by_cases hy : (moveWave time dt w).2 < 0 ∨ (moveWave time dt w).2 > H
      · simp only [hy, if_true]
        exact max_le hH (min_le_right _ _)
      · simp only [hy, if_false]
        push_neg at hy
        exact hy.2
  · rw [if_neg ha]
    exact hw

/-- C3, amended, for the canvas backend: from any in-bounds source set,
any finite number of updateWaveSources ticks keeps every source inside
[0, width] x [0, height]; and when a step carries an active source across a
boundary the position is clamped to that boundary with the phase reflected -
x-axis hits give phase pi - phase (position 0 on a left crossing, width on a
right crossing), y-axis hits give phase -phase (position 0 or height).  (The
mobile backend clamps to a margin-inset rectangle with no phase - see the
counterexample.) -/
theorem c3_canvas_wave_bounds_and_reflection (W H : ℝ) (hW : 0 ≤ W) (hH : 0 ≤ H) :
    (∀ (steps : List (ℝ × ℝ)) (ws : List WaveSource),
      (∀ w ∈ ws, waveInBounds W H w) →
      ∀ w ∈ runWaveSources W H steps ws, waveInBounds W H w) ∧
    (∀ (time dt : ℝ) (w : WaveSource), w.active = true →
      (moveWave time dt w).1 < 0 →
      0 ≤ (moveWave time dt w).2 → (moveWave time dt w).2 ≤ H →
      (updateWaveSource W H time dt w).x = 0 ∧
      (updateWaveSource W H time dt w).phase = Real.pi - w.phase) ∧
    (∀ (time dt : ℝ) (w : WaveSource), w.active = true →
      (moveWave time dt w).1 > W →
      0 ≤ (moveWave time dt w).2 → (moveWave time dt w).2 ≤ H →
      (updateWaveSource W H time dt w).x = W ∧
      (updateWaveSource W H time dt w).phase = Real.pi - w.phase) ∧
    (∀ (time dt : ℝ) (w : WaveSource), w.active = true →
      0 ≤ (moveWave time dt w).1 → (moveWave time dt w).1 ≤ W →
      (moveWave time dt w).2 < 0 →
      (updateWaveSource W H time dt w).y = 0 ∧
      (updateWaveSource W H time dt w).phase = -w.phase) ∧
    (∀ (time dt : ℝ) (w : WaveSource), w.active = true →
      0 ≤ (moveWave time dt w).1 → (moveWave time dt w).1 ≤ W →
      (moveWave time dt w).2 > H →
      (updateWaveSource W H time dt w).y = H ∧
      (updateWaveSource W H time dt w).phase = -w.phase) := by
  refine ⟨?_, ?_, ?_, ?_, ?_⟩
  · intro steps
    induction steps with
    | nil =>
      intro ws h
      simpa [runWaveSources] using h
    | cons td rest ih =>
      intro ws h w hw
      rw [runWaveSources] at hw
      refine ih _ ?_ w hw
      intro v hv
      rw [updateWaveSources, List.mem_map] at hv
      obtain ⟨u, hu, rfl⟩ := hv
      exact updateWaveSource_inBounds W H td.1 td.2 hW hH u (h u hu)
  · intro time dt w ha hx hy1 hy2
    have hx' : (moveWave time dt w).1 < 0 ∨ (moveWave time dt w).1 > W := Or.inl hx
    have hy' : ¬ ((moveWave time dt w).2 < 0 ∨ (moveWave time dt w).2 > H) := by
      push_neg
      exact ⟨hy1, hy2⟩
    unfold updateWaveSource
    rw [if_pos ha]
    simp only [hx', hy', if_true, if_false]
    constructor
    · rw [min_eq_left (le_trans hx.le hW), max_eq_left hx.le]
    · trivial
  · intro time dt w ha hx hy1 hy2
    have hx' : (moveWave time dt w).1 < 0 ∨ (moveWave time dt w).1 > W := Or.inr hx
    have hy' : ¬ ((moveWave time dt w).2 < 0 ∨ (moveWave time dt w).2 > H) := by
      push_neg
      exact ⟨hy1, hy2⟩
    unfold updateWaveSource
    rw [if_pos ha]
    simp only [hx', hy', if_true, if_false]
    constructor
    · rw [min_eq_right hx.le, max_eq_right hW]
    · trivial
  · intro time dt w ha hx1 hx2 hy
    have hx' : ¬ ((moveWave time dt w).1 < 0 ∨ (moveWave time dt w).1 > W) := by
      push_neg
      exact ⟨hx1, hx2⟩
    have hy' : (moveWave time dt w).2 < 0 ∨ (moveWave time dt w).2 > H := Or.inl hy
    unfold updateWaveSource
    rw [if_pos ha]
    simp only [hx', hy', if_true, if_false]
    constructor
    · rw [min_eq_left (le_trans hy.le hH), max_eq_left hy.le]
    · trivial
  · intro time dt w ha hx1 hx2 hy
    have hx' : ¬ ((moveWave time dt w).1 < 0 ∨ (moveWave time dt w).1 > W) := by
      push_neg
      exact ⟨hx1, hx2⟩
    have hy' : (moveWave time dt w).2 < 0 ∨ (moveWave time dt w).2 > H := Or.inr hy
    unfold updateWaveSource
    rw [if_pos ha]
    simp only [hx', hy', if_true, if_false]
    constructor
    · rw [min_eq_right hy.le, max_eq_right hH]
    · trivial


/-- C3, witness: a source at the left edge with phase 0 moved right by 200
pixels on a 100-wide canvas is clamped to x = 100 with phase reflected to
pi - 0. -/
theorem c3_witness :
    (updateWaveSource 100 100 0 4000 ⟨0, 50, 1, 1, 1, 0, true⟩).x = 100 ∧
    (updateWaveSource 100 100 0 4000 ⟨0, 50, 1, 1, 1, 0, true⟩).phase = Real.pi - 0 := by
  have hm : moveWave 0 4000 ⟨0, 50, 1, 1, 1, 0, true⟩ = (200, 50) := by
    unfold moveWave
    norm_num
  exact (c3_canvas_wave_bounds_and_reflection 100 100 (by norm_num) (by norm_num)).2.2.1
    0 4000 ⟨0, 50, 1, 1, 1, 0, true⟩ rfl (by rw [hm]; norm_num) (by rw [hm]; norm_num)
    (by rw [hm]; norm_num)

/-- C3, counterexample: in the mobile backend a wave source whose step
crosses the canvas boundary x = 0 (the moved position is 1 - 2 = -1 < 0) is
clamped to its own radius margin 40, not to the boundary 0, and the source
record has no phase to reflect. -/
theorem c3_mobile_margin_clamp :
    (animateWaveStep 300 300 (2000 * Real.pi) 1 false ⟨1, 50, 1, 0, 40, true⟩).x = 40 ∧
    (1 : ℝ) + Real.cos (2000 * Real.pi * 0.0005 * 1 + 0) * 1 * 1 * 2 < 0 ∧
    (40 : ℝ) ≠ 0 := by
  have hc : Real.cos (2000 * Real.pi * 0.0005 * 1 + 0) = -1 := by
    rw [show (2000 : ℝ) * Real.pi * 0.0005 * 1 + 0 = Real.pi by ring]
    exact Real.cos_pi
  refine ⟨?_, ?_, by norm_num⟩
  · simp only [animateWaveStep, hc]
    norm_num
  · rw [hc]
    norm_num

/-! ### Claims C1, C4, C10: the circular intensity field -/

/-- Range of the circular shape intensity before the lighting-mode
adjustment: it is never negative, never exceeds 1.3 (the base is at most 1
and the autoWave ripple adds at most sin * 0.3), and without autoWave it is
at most 1. -/
lemma shapeIntensity_circular_bounds (e : IntensityEnv) (hr : 0 < e.interactionRadius) :
    0 ≤ shapeIntensity LightingShape.circular e ∧
    shapeIntensity LightingShape.circular e ≤ 13 / 10 ∧
    (e.autoWave = false → shapeIntensity LightingShape.circular e ≤ 1) := by
  unfold shapeIntensity
  have hd : 0 ≤ touchDist e := Real.sqrt_nonneg _
  have hdiv : 0 ≤ touchDist e / e.interactionRadius := div_nonneg hd hr.le
  have hbase0 : 0 ≤ max 0 (1 - touchDist e / e.interactionRadius) := le_max_left _ _
  have hbase1 : max 0 (1 - touchDist e / e.interactionRadius) ≤ 1 := by
    apply max_le (by norm_num)
    linarith
  by_cases hA : e.autoWave = true
  · simp only [hA, Bool.or_true, if_true]
    refine ⟨le_max_left _ _, ?_, ?_⟩
    · apply max_le (by norm_num)
      have hs : Real.sin (touchDist e * 0.05 - e.waveTime * 3) ≤ 1 := Real.sin_le_one _
      linarith
    · intro h
      exact absurd h (by decide)
  · simp only [Bool.not_eq_true] at hA
    simp only [hA, Bool.or_false, Bool.false_eq_true, if_false]
    by_cases hT : e.isTouching = true
    · simp only [hT, if_true]
      exact ⟨hbase0, hbase1.trans (by norm_num), fun _ => hbase1⟩
    · simp only [Bool.not_eq_true] at hT
      simp only [hT, Bool.false_eq_true, if_false]
      exact ⟨le_refl 0, by norm_num, fun _ => by norm_num⟩

/-- The lighting-mode adjustment maps [0, c] into [0, c] for any c at least
1: uniform yields 1, pulse multiplies by a factor in [0, 1], the rest are
the identity. -/
lemma applyLightingMode_bounds (mode : Option LightingMode) (t i c : ℝ)
    (h0 : 0 ≤ i) (h1 : i ≤ c) (hc : 1 ≤ c) :
    0 ≤ applyLightingMode mode t i ∧ applyLightingMode mode t i ≤ c := by
  have hs1 : Real.sin (t * 5) ≤ 1 := Real.sin_le_one _
  have hs2 : -1 ≤ Real.sin (t * 5) := Real.neg_one_le_sin _
  rcases mode with _ | m
  · exact ⟨h0, h1⟩
  · cases m with
    | uniform =>
      simp only [applyLightingMode]
      exact ⟨by norm_num, hc⟩
    | pulse =>
      simp only [applyLightingMode]
      constructor
      · apply mul_nonneg h0
        linarith
      · calc i * (0.5 + 0.5 * Real.sin (t * 5)) ≤ i * 1 := by
              apply mul_le_mul_of_nonneg_left _ h0
              linarith
          _ = i := mul_one i
          _ ≤ c := h1
    | gradient => simp only [applyLightingMode]; exact ⟨h0, h1⟩
    | simple => simp only [applyLightingMode]; exact ⟨h0, h1⟩
    | solid => simp only [applyLightingMode]; exact ⟨h0, h1⟩
    | highlight => simp only [applyLightingMode]; exact ⟨h0, h1⟩

/-- C1, amended: for the circular lighting shape (any pointer state,
autoWave flag, time, cell position and lighting mode, with a positive
interaction radius) the intensity drawCell computes before color mapping
lies in [0, 13/10] - not in [0, 1]: the circular branch clamps only from
below, so with autoWave the base-plus-ripple sum can exceed 1, up to 1.3
(see the counterexample); without autoWave the value does stay in [0, 1]. -/
theorem c1_circular_intensity_range (e : IntensityEnv) (mode : Option LightingMode)
    (hr : 0 < e.interactionRadius) :
    0 ≤ cellIntensity LightingShape.circular mode e ∧
    cellIntensity LightingShape.circular mode e ≤ 13 / 10 ∧
    (e.autoWave = false → cellIntensity LightingShape.circular mode e ≤ 1) := by
  obtain ⟨h0, h1, h2⟩ := shapeIntensity_circular_bounds e hr
  unfold cellIntensity
  refine ⟨(applyLightingMode_bounds mode e.waveTime _ (13 / 10) h0 h1 (by norm_num)).1,
    (applyLightingMode_bounds mode e.waveTime _ (13 / 10) h0 h1 (by norm_num)).2, ?_⟩
  intro h
  exact (applyLightingMode_bounds mode e.waveTime _ 1 h0 (h2 h) (by norm_num)).2

/-- C1, witness: the range bounds instantiated on a concrete environment
with pulse lighting, touch and autoWave active, and radius 100. -/
theorem c1_witness :
    0 ≤ cellIntensity LightingShape.circular (some LightingMode.pulse)
      ⟨10, 20, 0, 0, 30, 40, true, true, 400, 300, 100, 2⟩ ∧
    cellIntensity LightingShape.circular (some LightingMode.pulse)
      ⟨10, 20, 0, 0, 30, 40, true, true, 400, 300, 100, 2⟩ ≤ 13 / 10 := by
  have h := c1_circular_intensity_range
    ⟨10, 20, 0, 0, 30, 40, true, true, 400, 300, 100, 2⟩
    (some LightingMode.pulse) (by norm_num)
  exact ⟨h.1, h.2.1⟩

/-- C1, counterexample: with the circular shape, autoWave on, the cell at
the synthesized pointer position (distance 0) and time pi/2, the ripple term
sin(0 * 0.05 - (pi/2) * 3) evaluates to 1, so the intensity is
max(0, 1 + 0.3) = 1.3 > 1: the claimed upper clamp at 1 does not exist in
the circular branch. -/
theorem c1_circular_autowave_exceeds_one :
    cellIntensity LightingShape.circular none
      ⟨0, 0, 0, 0, 0, 0, false, true, 400, 300, 100, Real.pi / 2⟩ = 13 / 10 ∧
    (1 : ℝ) < 13 / 10 := by
  refine ⟨?_, by norm_num⟩
  have hd : touchDist ⟨0, 0, 0, 0, 0, 0, false, true, 400, 300, 100, Real.pi / 2⟩ = 0 := by
    unfold touchDist
    norm_num
  unfold cellIntensity applyLightingMode shapeIntensity
  rw [hd]
  have hs : Real.sin (Real.pi / 2 * 3) = -1 := by
    rw [show Real.pi / 2 * 3 = Real.pi / 2 + Real.pi by ring, Real.sin_add_pi,
      Real.sin_pi_div_two]
  norm_num [hs, sup_eq_right]

/-- C4: for the circular shape with an active pointer, no autoWave, and no
lighting-mode override (mode neither uniform nor pulse), the intensity is
exactly max(0, 1 - distance(cell, pointer) / interactionRadius). -/
theorem c4_circular_pointer_intensity (e : IntensityEnv) (mode : Option LightingMode)
    (hT : e.isTouching = true) (hA : e.autoWave = false)
    (hu : mode ≠ some LightingMode.uniform) (hp : mode ≠ some LightingMode.pulse) :
    cellIntensity LightingShape.circular mode e =
      max 0 (1 - touchDist e / e.interactionRadius) := by
  have hshape : shapeIntensity LightingShape.circular e =
      max 0 (1 - touchDist e / e.interactionRadius) := by
    unfold shapeIntensity
    rw [hT, hA]
    simp
  unfold cellIntensity
  rw [hshape]
  rcases mode with _ | m
  · rfl
  · cases m with
    | uniform => exact absurd rfl hu
    | pulse => exact absurd rfl hp
    | gradient => rfl
    | simple => rfl
    | solid => rfl
    | highlight => rfl

/-- C4, witness: pointer at the canvas center (200, 150) of a 400 x 300
canvas, interactionRadius 100, cell at (250, 150) exactly 50 pixels away:
the intensity is exactly 0.5. -/
theorem c4_witness :
    cellIntensity LightingShape.circular none
      ⟨250, 150, 0, 0, 200, 150, true, false, 400, 300, 100, 0⟩ = 1 / 2 := by
  rw [c4_circular_pointer_intensity _ none rfl rfl (by simp) (by simp)]
  have hd : touchDist ⟨250, 150, 0, 0, 200, 150, true, false, 400, 300, 100, 0⟩ = 50 := by
    unfold touchDist
    norm_num
    rw [show (2500 : ℝ) = 50 ^ 2 by norm_num]
    exact Real.sqrt_sq (by norm_num)
  rw [hd]
  rw [show (1 : ℝ) - 50 / 100 = 1 / 2 by norm_num]
  rw [max_eq_right (by norm_num : (0 : ℝ) ≤ 1 / 2)]

/-- C10: in the canvas backend circular branch, whenever the pointer is
inactive and autoWave is disabled the computed shape intensity is exactly 0
for every cell - the distance-based formula is gated behind the
isInteractive test and is never evaluated. -/
theorem c10_circular_inactive_intensity_zero (e : IntensityEnv)
    (hT : e.isTouching = false) (hA : e.autoWave = false) :
    shapeIntensity LightingShape.circular e = 0 := by
  unfold shapeIntensity
  rw [hT, hA]
  simp

/-- C10, witness: a cell far from the last recorded pointer position still
gets intensity exactly 0 when no pointer is active and autoWave is off. -/
theorem c10_witness :
    shapeIntensity LightingShape.circular
      ⟨10, 20, 0, 0, 500, 500, false, false, 400, 300, 100, 7⟩ = 0 :=
  c10_circular_inactive_intensity_zero _ rfl rfl

end PixelGrid
